import Mathlib

/-!
Verification development for the image generation and upload pipeline of the
double-ninth-festival repository.

The embedding covers:
* `src/lib/doubao_seedream.ts` — input validation (`DoubaoSeedreamInputSchema`),
  size-tier resolution, request-body construction, the supplemental-call loop and
  the overall `generateDoubaoSeedreamImage` driver;
* `src/lib/image-utils.ts` — `processAndUploadImage` and
  `processAndUploadImagesBatch`.

External effects (HTTP fetches, sharp re-encoding, OSS puts, URL signing) are
modelled by environment records that fix the outcome of each effectful step;
the functions below are the pure control flow of the source, translated
step by step. Network/OSS call order is recorded in an explicit event trace.
-/

/-- Resolution tier sent to the provider, source type `DoubaoSeedreamSize = "2K" | "4K"`. -/
inductive DoubaoSize where
  | k2
  | k4
  deriving DecidableEq, Repr

/-- Source type `"disabled" | "auto"` for `sequential_image_generation`. -/
inductive SeqGen where
  | disabled
  | auto
  deriving DecidableEq, Repr

/-- Source type `number | "standard" | "hd"` for the `quality` parameter. -/
inductive QualityParam where
  | num (q : Int)
  | standard
  | hd
  deriving DecidableEq, Repr

/-- Source type `string | string[]` for the `image` reference parameter. -/
abbrev ImageRef := Sum String (List String)

/-- Subset of sharp `ResizeOptions` used by the source (width, height, fit, position). -/
structure ResizeOpts where
  width : Nat
  height : Nat
  fit : String := "cover"
  position : String := "center"
  deriving DecidableEq, Repr

/-- The regex test `/^[0-9]+x[0-9]+$/i` from `doubao_seedream.ts`:
a nonempty run of digits, an `x` (case-insensitive), a nonempty run of digits. -/
def matchesWxH (s : String) : Bool :=
  match s.data.span Char.isDigit with
  | (ds, c :: rest) =>
      !ds.isEmpty && (c == 'x' || c == 'X') && !rest.isEmpty && rest.all Char.isDigit
  | (_, []) => false

/-- Decimal value of a digit run, as computed by `parseInt(str, 10)` on an
all-digit string. -/
def parseDigits (cs : List Char) : Nat :=
  cs.foldl (fun n c => n * 10 + (c.toNat - 48)) 0

/-- The `requestedSize.toLowerCase().split("x")` + `parseInt` step of
`generateDoubaoSeedreamImage` (lines 94-96), for strings accepted by the regex:
the digits before the separator and the digits after it. -/
def parseWxH (s : String) : Nat × Nat :=
  match s.data.span Char.isDigit with
  | (ds, _ :: rest) => (parseDigits ds, parseDigits rest)
  | (ds, []) => (parseDigits ds, 0)

/-- The size branch of the zod union: `z.enum(["2K","4K"])` or the WxH regex. -/
def validSize (s : String) : Bool :=
  s == "2K" || s == "4K" || matchesWxH s

/-- The tier-resolution block of `generateDoubaoSeedreamImage` (lines 89-115):
an explicit `WxH` with positive dimensions resolves to 4K when the larger
dimension exceeds 2048 (and derives a cover/center resize directive when the
caller supplied none); `"4K"` maps to 4K; everything else stays at the initial
`"2K"` with the caller resize options untouched. -/
def resolveSizeAndResize (requestedSize : String) (resizeOptions : Option ResizeOpts) :
    DoubaoSize × Option ResizeOpts :=
  if matchesWxH requestedSize then
    let wh := parseWxH requestedSize
    if 0 < wh.1 ∧ 0 < wh.2 then
      ( if 2048 < max wh.1 wh.2 then DoubaoSize.k4 else DoubaoSize.k2,
        match resizeOptions with
        | some ro => some ro
        | none => some { width := wh.1, height := wh.2 } )
    else (DoubaoSize.k2, resizeOptions)
  else if requestedSize = "4K" then (DoubaoSize.k4, resizeOptions)
  else (DoubaoSize.k2, resizeOptions)

/-- Caller-facing parameters of `generateDoubaoSeedreamImage` (lines 64-76).
`none` models an omitted (`undefined`) optional field. -/
structure GenParams where
  prompt : String
  negative_prompt : Option String := none
  image : Option ImageRef := none
  size : Option String := none
  num_images : Option Int := none
  sequential_image_generation : Option SeqGen := none
  stream : Option Bool := none
  watermark : Option Bool := none
  seed : Option Int := none
  projectId : Option String := none
  quality : Option QualityParam := none
  resizeOptions : Option ResizeOpts := none
  deriving Repr

/-- Output of a successful `DoubaoSeedreamInputSchema.parse`, with zod defaults
applied (`size` ← "2K", `num_images` ← 1, `sequential_image_generation` ←
"disabled", `stream` ← false, `watermark` ← false). -/
structure ValidatedParams where
  prompt : String
  negative_prompt : Option String
  image : Option ImageRef
  size : String
  num_images : Int
  sequential_image_generation : SeqGen
  stream : Bool
  watermark : Bool
  seed : Option Int
  quality : Option QualityParam
  deriving DecidableEq, Repr

/-- `DoubaoSeedreamInputSchema.parse` (lines 32-54): prompt length in [1,800],
negative prompt length at most 500, size `"2K"`/`"4K"` or `WxH`, `num_images`
in [1,4], seed in [0,2147483647], numeric quality in [1,10]; unknown keys
(`projectId`, `resizeOptions`) are stripped; defaults applied on success.
A `ZodError` throw is modelled as `Except.error`. -/
def DoubaoSeedreamInputSchema (p : GenParams) : Except String ValidatedParams :=
  if p.prompt.length < 1 then
    Except.error "String must contain at least 1 character(s)"
  else if 800 < p.prompt.length then
    Except.error "提示词不能超过800字符"
  else if 500 < (match p.negative_prompt with | some np => np.length | none => 0) then
    Except.error "反向提示词不能超过500字符"
  else if (match p.size with | some s => !validSize s | none => false) then
    Except.error "尺寸格式必须为 WxH，例如 1440x2560"
  else if (match p.num_images with
           | some n => decide (n < 1) || decide (4 < n)
           | none => false) then
    Except.error "num_images must be between 1 and 4"
  else if (match p.seed with
           | some sd => decide (sd < 0) || decide (2147483647 < sd)
           | none => false) then
    Except.error "seed out of range"
  else if (match p.quality with
           | some (QualityParam.num q) => decide (q < 1) || decide (10 < q)
           | _ => false) then
    Except.error "quality out of range"
  else
    Except.ok
      { prompt := p.prompt
        negative_prompt := p.negative_prompt
        image := p.image
        size := p.size.getD "2K"
        num_images := p.num_images.getD 1
        sequential_image_generation := p.sequential_image_generation.getD SeqGen.disabled
        stream := p.stream.getD false
        watermark := p.watermark.getD false
        seed := p.seed
        quality := p.quality }

example : matchesWxH "1440x2560" = true := by decide
example : matchesWxH "100X200" = true := by decide
example : matchesWxH "abcxdef" = false := by decide
example : matchesWxH "2K" = false := by decide
example : parseWxH "3000x1000" = (3000, 1000) := by decide
example : validSize "abcxdef" = false := by decide
example : resolveSizeAndResize "3000x1000" none =
    (DoubaoSize.k4, some { width := 3000, height := 1000 }) := by decide
example : resolveSizeAndResize "1024x768" none =
    (DoubaoSize.k2, some { width := 1024, height := 768 }) := by decide
example : resolveSizeAndResize "0x0" none = (DoubaoSize.k2, none) := by decide
example : (DoubaoSeedreamInputSchema { prompt := "秋山红叶" }).isOk = true := by decide
example : (DoubaoSeedreamInputSchema { prompt := "p", size := some "abcxdef" }).isOk = false := by
  decide

/-! ## Image acquisition and upload pipeline (`image-utils`) -/

/-- Result record of `processAndUploadImage` (interface `ImageProcessResult`). -/
structure ImageProcessResult where
  success : Bool
  url : Option String := none
  ossKey : Option String := none
  error : Option String := none
  originalSize : Option Nat := none
  compressedSize : Option Nat := none
  compressionRatio : Option Rat := none
  deriving DecidableEq, Repr

/-- Outcome of the image download `fetch` (only the fields the source reads). -/
structure HttpResponse where
  ok : Bool
  status : Nat
  statusText : String
  bytes : List Nat
  deriving DecidableEq, Repr

/-- Environment fixing the outcome of every effectful step of one
`processAndUploadImage` call: the download, the sharp WebP re-encode, the
timestamp/random id used for the generated key, the OSS put and the signing. -/
structure ImageEnv where
  fetchResult : Except String HttpResponse
  encodeResult : Except String (List Nat)
  timestampMs : Nat
  randomId : String
  putResult : Except String Unit
  signResult : Except String String

/-- The compression-ratio expression of `processAndUploadImage` (line 73):
`originalSize > 0 ? (originalSize - compressedSize) / originalSize * 100 : 0`. -/
def computeCompressionRatio (originalSize compressedSize : Nat) : Rat :=
  if 0 < originalSize then
    ((originalSize : Rat) - (compressedSize : Rat)) / (originalSize : Rat) * 100
  else 0

/-- The OSS key construction of `processAndUploadImage` (lines 82-86). -/
def ossKeyFor (env : ImageEnv) (projectId : Option String) (fileName : Option String) : String :=
  match fileName with
  | some fn => "generated-images/" ++ projectId.getD "default" ++ "/" ++ fn
  | none =>
      "generated-images/" ++ projectId.getD "default" ++ "/" ++
        toString env.timestampMs ++ "-" ++ env.randomId ++ ".webp"

/-- The `try` body of `processAndUploadImage` (lines 32-109): download, reject
non-2xx, reject empty body, re-encode, compute sizes and ratio, build the key,
upload, sign. Each `throw` is an `Except.error`. -/
def processAndUploadImageE (env : ImageEnv) (projectId : Option String)
    (fileName : Option String) : Except String ImageProcessResult :=
  match env.fetchResult with
  | Except.error e => Except.error e
  | Except.ok response =>
    if response.ok = false then
      Except.error ("下载失败: " ++ toString response.status ++ " " ++ response.statusText)
    else if response.bytes.length = 0 then
      Except.error "图像数据为空"
    else
      match env.encodeResult with
      | Except.error e => Except.error e
      | Except.ok processed =>
        match env.putResult with
        | Except.error e => Except.error e
        | Except.ok _ =>
          match env.signResult with
          | Except.error e => Except.error e
          | Except.ok signedUrl =>
            Except.ok
              { success := true
                url := some signedUrl
                ossKey := some (ossKeyFor env projectId fileName)
                originalSize := some response.bytes.length
                compressedSize := some processed.length
                compressionRatio :=
                  some (computeCompressionRatio response.bytes.length processed.length) }

/-- `processAndUploadImage` (lines 25-118): the `try` body with its enclosing
`catch`, which converts any thrown error into `{success: false, error}`.
The source also takes `imageUrl`, `quality` and `resizeOptions`; their effect
(the download target and the sharp invocation) is carried by `env`. -/
def processAndUploadImage (env : ImageEnv) (projectId : Option String)
    (fileName : Option String) : ImageProcessResult :=
  match processAndUploadImageE env projectId fileName with
  | Except.ok r => r
  | Except.error e => { success := false, error := some e }

/-- `batch.map((url, index) => ...)` with the global offset `i` of the source
loop: applies `f` to each element together with its global position. -/
def mapFrom (f : Nat → String → ImageProcessResult) (off : Nat) :
    List String → List ImageProcessResult
  | [] => []
  | u :: us => f off u :: mapFrom f (off + 1) us

/-- The chunking loop of `processAndUploadImagesBatch` (lines 141-152):
`for (let i = 0; i < urls.length; i += concurrency)` processes
`slice(i, i + concurrency)` per iteration and appends each chunk's results.
`fuel` bounds the iteration count; with `fuel ≥ l.length` and `0 < c` it never
runs out (the source loop never terminates when `concurrency = 0`, so all
theorems assume a positive concurrency). -/
def batchAux (f : Nat → String → ImageProcessResult) (c : Nat) :
    Nat → Nat → List String → List ImageProcessResult
  | _, _, [] => []
  | 0, _, _ :: _ => []
  | fuel + 1, off, u :: us =>
      mapFrom f off ((u :: us).take c) ++ batchAux f c fuel (off + c) ((u :: us).drop c)

/-- `processAndUploadImagesBatch` (lines 128-160). The per-item call
`processAndUploadImage(url, projectId, fileName, quality, resizeOptions)` is
abstracted as `procOne idx url projectId quality resizeOptions`, where `idx`
is the global position (the source builds `fileName` from it). -/
def processAndUploadImagesBatch
    (procOne : Nat → String → Option String → Int → Option ResizeOpts → ImageProcessResult)
    (imageUrls : List String) (projectId : Option String) (quality : Int)
    (concurrency : Nat) (resizeOptions : Option ResizeOpts) : List ImageProcessResult :=
  batchAux (fun i u => procOne i u projectId quality resizeOptions)
    concurrency imageUrls.length 0 imageUrls

/-- The partition of a url list into the chunks visited by the batch loop:
`slice(i, i + c)` for `i = 0, c, 2c, ...`. Same fuel discipline as `batchAux`. -/
def chunkedAux (c : Nat) : Nat → List String → List (List String)
  | _, [] => []
  | 0, _ :: _ => []
  | fuel + 1, l => l.take c :: chunkedAux c fuel (l.drop c)

/-- The chunks visited by `processAndUploadImagesBatch` on `l`. -/
def chunked (c : Nat) (l : List String) : List (List String) :=
  chunkedAux c l.length l

example :
    processAndUploadImage
      { fetchResult := Except.ok { ok := true, status := 200, statusText := "OK", bytes := [1, 2, 3, 4] }
        encodeResult := Except.ok [9, 9]
        timestampMs := 1700000000000
        randomId := "ab12cd"
        putResult := Except.ok ()
        signResult := Except.ok "https://oss.example/signed" }
      (some "proj") none =
      { success := true
        url := some "https://oss.example/signed"
        ossKey := some "generated-images/proj/1700000000000-ab12cd.webp"
        originalSize := some 4
        compressedSize := some 2
        compressionRatio := some 50 } := by
  simp only [processAndUploadImage, processAndUploadImageE, ossKeyFor, computeCompressionRatio]
  norm_num
  decide

example :
    processAndUploadImage
      { fetchResult := Except.ok { ok := false, status := 404, statusText := "Not Found", bytes := [] }
        encodeResult := Except.ok []
        timestampMs := 0, randomId := "r", putResult := Except.ok (), signResult := Except.ok "u" }
      none none =
      { success := false, error := some "下载失败: 404 Not Found" } := by decide

example : chunked 2 ["a", "b", "c", "d", "e"] = [["a", "b"], ["c", "d"], ["e"]] := by decide

/-! ## Generation client (`doubao_seedream.ts`) -/

/-- Request body `DoubaoSeedreamRequest` (lines 10-23). Optional fields are
`none` when the source leaves the key unset. -/
structure DoubaoSeedreamRequest where
  model : String
  prompt : String
  negative_prompt : Option String := none
  image : Option ImageRef := none
  size : DoubaoSize
  num_images : Option Int := none
  sequential_image_generation : Option SeqGen := none
  stream : Bool
  response_format : String
  watermark : Bool
  seed : Option Int := none
  quality : Option QualityParam := none
  deriving DecidableEq, Repr

/-- The request construction of lines 124-147. JavaScript truthiness guards the
optional keys: an empty `negative_prompt` string and an empty-string `image`
are falsy and therefore not added; `seed`/`quality` are added whenever defined. -/
def buildRequestBody (v : ValidatedParams) (apiSize : DoubaoSize) : DoubaoSeedreamRequest :=
  { model := "doubao-seedream-4-0-250828"
    prompt := v.prompt
    negative_prompt :=
      match v.negative_prompt with
      | some np => if np = "" then none else some np
      | none => none
    image :=
      match v.image with
      | some (Sum.inl s) => if s = "" then none else some (Sum.inl s)
      | other => other
    size := apiSize
    num_images := some 2
    sequential_image_generation := some SeqGen.auto
    stream := v.stream
    response_format := "url"
    watermark := v.watermark
    seed := v.seed
    quality := v.quality }

/-- The quality-to-compression mapping of lines 204-214, including the JS
truthiness check `if (params.quality)` that leaves the default 80 for a
numeric 0. -/
def mapImageQuality : Option QualityParam → Int
  | none => 80
  | some (QualityParam.num q) => if q = 0 then 80 else q * 10
  | some QualityParam.standard => 80
  | some QualityParam.hd => 95

/-- Outcome of one provider HTTP call. `thrown` models a rejected `fetch` or a
failing `response.json()`; `httpError` a non-2xx response; `ok` a 2xx response
with the parsed `data` field (`none` when the key is absent). -/
inductive CallOutcome where
  | thrown (msg : String)
  | httpError (status : Nat) (statusText : String) (errorText : String)
  | ok (data : Option (List String))
  deriving DecidableEq, Repr

/-- Observable steps of one `generateDoubaoSeedreamImage` call, in order. -/
inductive Event where
  | primaryCall (body : DoubaoSeedreamRequest)
  | supplementalCall (i : Nat) (body : DoubaoSeedreamRequest)
  | delayMs (ms : Nat)
  | processBatchCall (urls : List String)
  deriving DecidableEq, Repr

/-- Environment of one `generateDoubaoSeedreamImage` call: the API key lookup,
the primary provider call, the i-th supplemental provider call, and the
per-item outcome of the upload pipeline (index, url, projectId, quality,
resizeOptions — the source derives the batch fileName from the index). -/
structure GenEnv where
  apiKey : Option String
  primary : CallOutcome
  supplemental : Nat → CallOutcome
  procOne : Nat → String → Option String → Int → Option ResizeOpts → ImageProcessResult

/-- Effect of one supplemental response (lines 242-250): the pushed URL, if
any, and whether the iteration threw (skipping the in-`try` delay). A 2xx
response contributes `data[0].url` only when `data` is a nonempty array. -/
def suppStep : CallOutcome → Option String × Bool
  | CallOutcome.thrown _ => (none, true)
  | CallOutcome.httpError _ _ _ => (none, false)
  | CallOutcome.ok (some (u :: _)) => (some u, false)
  | CallOutcome.ok _ => (none, false)

/-- The supplemental loop body over the index list (lines 225-259): for each
`i`, one supplemental call; the fixed 1000 ms delay runs when `i <
remaining - 1` and the iteration did not throw (the `setTimeout` sits inside
the per-iteration `try`). -/
def supplementalAux (step : Nat → CallOutcome) (body : DoubaoSeedreamRequest)
    (remaining : Nat) : List Nat → List String × List Event
  | [] => ([], [])
  | i :: rest =>
      let s := suppStep (step i)
      let evHere := Event.supplementalCall i body ::
        (if s.2 = false ∧ i + 1 < remaining then [Event.delayMs 1000] else [])
      let r := supplementalAux step body remaining rest
      (s.1.toList ++ r.1, evHere ++ r.2)

/-- `for (let i = 0; i < remainingImages; i++) { ... }` of lines 225-259. -/
def supplementalLoop (step : Nat → CallOutcome) (body : DoubaoSeedreamRequest)
    (remaining : Nat) : List String × List Event :=
  supplementalAux step body remaining (List.range remaining)

/-- The under-delivery check and supplemental loop of lines 216-260: when the
primary call returned fewer URLs than `validatedParams.num_images`, issue one
supplemental call per missing image with the request body minus `num_images`. -/
def suppResultOf (env : GenEnv) (v : ValidatedParams) (requestBody : DoubaoSeedreamRequest)
    (imageUrls : List String) : List String × List Event :=
  if (imageUrls.length : Int) < v.num_images then
    supplementalLoop env.supplemental { requestBody with num_images := none }
      ((v.num_images - (imageUrls.length : Int)).toNat)
  else ([], [])

/-- Per-image record in the success result (line 280-286 / the `images` field
of the return type). -/
structure GenImage where
  url : String
  ossKey : Option String := none
  originalSize : Option Nat := none
  compressedSize : Option Nat := none
  compressionRatio : Option Rat := none
  deriving DecidableEq, Repr

/-- Return value of `generateDoubaoSeedreamImage` (lines 77-83). -/
structure GenOutcome where
  success : Bool
  urls : Option (List String) := none
  ossKeys : Option (List String) := none
  error : Option String := none
  images : Option (List GenImage) := none
  deriving DecidableEq, Repr

/-- Lines 273-303: filter the successful results; zero successes throws
`所有图像处理都失败了` (caught by the outer handler); otherwise build the
success outcome from exactly the successful subset, with `ossKeys` keeping
only truthy (nonempty) keys. -/
def finishProcessing (processResults : List ImageProcessResult) : GenOutcome :=
  let successfulResults := processResults.filter (fun r => r.success)
  if successfulResults.isEmpty then
    { success := false, error := some "所有图像处理都失败了" }
  else
    let images := successfulResults.map (fun r =>
      ({ url := r.url.getD ""
         ossKey := r.ossKey
         originalSize := r.originalSize
         compressedSize := r.compressedSize
         compressionRatio := r.compressionRatio } : GenImage))
    { success := true
      urls := some (images.map (fun img => img.url))
      ossKeys := some (images.filterMap (fun img =>
        match img.ossKey with
        | some k => if k = "" then none else some k
        | none => none))
      images := some images }

/-- Lines 204-303 after a successful primary call with a nonempty URL list:
quality mapping, supplemental calls, batch processing, result assembly. -/
def generateAfterUrls (env : GenEnv) (params : GenParams) (v : ValidatedParams)
    (requestBody : DoubaoSeedreamRequest) (targetResizeOptions : Option ResizeOpts)
    (imageUrls : List String) : GenOutcome × List Event :=
  let imageQuality := mapImageQuality params.quality
  let supp := suppResultOf env v requestBody imageUrls
  let allImageUrls := imageUrls ++ supp.1
  let processResults := processAndUploadImagesBatch env.procOne allImageUrls
    params.projectId imageQuality 3 targetResizeOptions
  (finishProcessing processResults,
    Event.primaryCall requestBody :: (supp.2 ++ [Event.processBatchCall allImageUrls]))

/-- `generateDoubaoSeedreamImage` (lines 64-314) with its event trace. The
whole body sits in a `try`/`catch` that converts every throw into
`{success: false, error}`; validation and the API-key check precede the first
network call. -/
def generateDoubaoSeedreamImage (env : GenEnv) (params : GenParams) :
    GenOutcome × List Event :=
  match DoubaoSeedreamInputSchema params with
  | Except.error e => ({ success := false, error := some e }, [])
  | Except.ok v =>
    match env.apiKey with
    | none => ({ success := false, error := some "SEED_EDIT_KEY 环境变量未配置" }, [])
    | some _ =>
      let sizeResolution := resolveSizeAndResize v.size params.resizeOptions
      let requestBody := buildRequestBody v sizeResolution.1
      match env.primary with
      | CallOutcome.thrown msg =>
          ({ success := false, error := some msg }, [Event.primaryCall requestBody])
      | CallOutcome.httpError status statusText errorText =>
          ({ success := false
             error := some ("API 调用失败: " ++ toString status ++ " " ++ statusText ++
               " - " ++ errorText) }, [Event.primaryCall requestBody])
      | CallOutcome.ok data =>
          if (data.getD []).isEmpty then
            ({ success := false, error := some "API 响应中未找到图像 URL" },
              [Event.primaryCall requestBody])
          else
            generateAfterUrls env params v requestBody sizeResolution.2 (data.getD [])

/-- A pipeline stub where every item processes successfully. -/
def okProcOne : Nat → String → Option String → Int → Option ResizeOpts → ImageProcessResult :=
  fun _ u _ _ _ => { success := true, url := some ("oss://" ++ u), ossKey := some ("key-" ++ u) }

/-- A pipeline stub where every item fails. -/
def failProcOne : Nat → String → Option String → Int → Option ResizeOpts → ImageProcessResult :=
  fun _ _ _ _ _ => { success := false, error := some "下载失败: 500 err" }

example :
    (generateDoubaoSeedreamImage
        { apiKey := some "key"
          primary := CallOutcome.ok (some ["u1", "u2"])
          supplemental := fun _ => CallOutcome.ok (some ["v"])
          procOne := okProcOne }
        { prompt := "秋山红叶", size := some "2K", num_images := some 1 }).1 =
      { success := true
        urls := some ["oss://u1", "oss://u2"]
        ossKeys := some ["key-u1", "key-u2"]
        images := some
          [{ url := "oss://u1", ossKey := some "key-u1" },
           { url := "oss://u2", ossKey := some "key-u2" }] } := by decide

example :
    (generateDoubaoSeedreamImage
        { apiKey := some "key"
          primary := CallOutcome.ok (some ["u1"])
          supplemental := fun i => if i = 0 then CallOutcome.thrown "network" else CallOutcome.ok (some ["u3"])
          procOne := okProcOne }
        { prompt := "p", num_images := some 3 }).2 =
      [Event.primaryCall (buildRequestBody
          { prompt := "p", negative_prompt := none, image := none, size := "2K", num_images := 3,
            sequential_image_generation := SeqGen.disabled, stream := false, watermark := false,
            seed := none, quality := none } DoubaoSize.k2),
       Event.supplementalCall 0 { buildRequestBody
          { prompt := "p", negative_prompt := none, image := none, size := "2K", num_images := 3,
            sequential_image_generation := SeqGen.disabled, stream := false, watermark := false,
            seed := none, quality := none } DoubaoSize.k2 with num_images := none },
       Event.supplementalCall 1 { buildRequestBody
          { prompt := "p", negative_prompt := none, image := none, size := "2K", num_images := 3,
            sequential_image_generation := SeqGen.disabled, stream := false, watermark := false,
            seed := none, quality := none } DoubaoSize.k2 with num_images := none },
       Event.processBatchCall ["u1", "u3"]] := by decide

example :
    (generateDoubaoSeedreamImage
        { apiKey := some "key"
          primary := CallOutcome.ok (some ["u1"])
          supplemental := fun _ => CallOutcome.ok (some ["v"])
          procOne := okProcOne }
        { prompt := "p", num_images := some 3 }).2.countP
      (fun e => match e with | Event.delayMs _ => true | _ => false) = 1 := by decide

example :
    (generateDoubaoSeedreamImage
        { apiKey := some "key"
          primary := CallOutcome.ok (some ["u1", "u2"])
          supplemental := fun _ => CallOutcome.ok (some ["v"])
          procOne := failProcOne }
        { prompt := "p" }).1 =
      { success := false, error := some "所有图像处理都失败了" } := by decide

/-! ## Batch pipeline lemmas -/

theorem mapFrom_length (f : Nat → String → ImageProcessResult) :
    ∀ (l : List String) (off : Nat), (mapFrom f off l).length = l.length := by
  intro l
  induction l with
  | nil => intro off; rfl
  | cons u us ih => intro off; simp [mapFrom, ih]

theorem mapFrom_getD (f : Nat → String → ImageProcessResult) (d : ImageProcessResult) :
    ∀ (l : List String) (off i : Nat), i < l.length →
      (mapFrom f off l).getD i d = f (off + i) (l.getD i "") := by
  intro l
  induction l with
  | nil => intro off i h; simp at h
  | cons u us ih =>
    intro off i h
    cases i with
    | zero => simp [mapFrom]
    | succ j =>
      have hj : j < us.length := by simp at h; omega
      simp only [mapFrom, List.getD_cons_succ]
      rw [ih (off + 1) j hj]
      congr 1
      omega

theorem mapFrom_append (f : Nat → String → ImageProcessResult) :
    ∀ (l₁ l₂ : List String) (off : Nat),
      mapFrom f off (l₁ ++ l₂) = mapFrom f off l₁ ++ mapFrom f (off + l₁.length) l₂ := by
  intro l₁
  induction l₁ with
  | nil => intro l₂ off; simp [mapFrom]
  | cons u us ih =>
    intro l₂ off
    simp only [List.cons_append, mapFrom, ih, List.length_cons]
    rw [show off + (us.length + 1) = off + 1 + us.length from by omega]
    exact congrArg _ (ih l₂ (off + 1))

theorem batchAux_eq_mapFrom (f : Nat → String → ImageProcessResult) (c : Nat) (hc : 0 < c) :
    ∀ (fuel : Nat) (l : List String) (off : Nat), l.length ≤ fuel →
      batchAux f c fuel off l = mapFrom f off l := by
  intro fuel
  induction fuel with
  | zero =>
    intro l off h
    have hl : l = [] := List.length_eq_zero.mp (Nat.le_zero.mp h)
    subst hl; rfl
  | succ fuel ih =>
    intro l off h
    match l with
    | [] => rfl
    | u :: us =>
      have hlen2 : ((u :: us).drop c).length ≤ fuel := by
        rw [List.length_drop]
        simp only [List.length_cons] at h ⊢
        omega
      simp only [batchAux]
      rw [ih _ _ hlen2]
      have hsplit : mapFrom f off (u :: us) =
          mapFrom f off ((u :: us).take c) ++
            mapFrom f (off + ((u :: us).take c).length) ((u :: us).drop c) := by
        rw [← mapFrom_append, List.take_append_drop]
      rw [hsplit]
      by_cases hle : (u :: us).length ≤ c
      · rw [List.drop_eq_nil_of_le hle]
        simp [mapFrom]
      · have htk : ((u :: us).take c).length = c := by
          rw [List.length_take]
          omega
        rw [htk]

theorem processAndUploadImagesBatch_eq_mapFrom
    (procOne : Nat → String → Option String → Int → Option ResizeOpts → ImageProcessResult)
    (imageUrls : List String) (projectId : Option String) (quality : Int)
    (concurrency : Nat) (resizeOptions : Option ResizeOpts) (hc : 0 < concurrency) :
    processAndUploadImagesBatch procOne imageUrls projectId quality concurrency resizeOptions =
      mapFrom (fun i u => procOne i u projectId quality resizeOptions) 0 imageUrls :=
  batchAux_eq_mapFrom _ _ hc _ _ _ (Nat.le_refl _)

theorem chunkedAux_nil (c fuel : Nat) : chunkedAux c fuel [] = [] := by
  cases fuel <;> rfl

theorem chunkedAux_join (c : Nat) (hc : 0 < c) :
    ∀ (fuel : Nat) (l : List String), l.length ≤ fuel → (chunkedAux c fuel l).flatten = l := by
  intro fuel
  induction fuel with
  | zero =>
    intro l h
    have hl : l = [] := List.length_eq_zero.mp (Nat.le_zero.mp h)
    subst hl; rfl
  | succ fuel ih =>
    intro l h
    match l with
    | [] => rfl
    | u :: us =>
      have hlen2 : ((u :: us).drop c).length ≤ fuel := by
        rw [List.length_drop]
        simp only [List.length_cons] at h ⊢
        omega
      simp only [chunkedAux, List.flatten_cons]
      rw [ih _ hlen2, List.take_append_drop]

theorem chunkedAux_mem (c : Nat) (hc : 0 < c) :
    ∀ (fuel : Nat) (l : List String), l.length ≤ fuel →
      ∀ ch ∈ chunkedAux c fuel l, ch ≠ [] ∧ ch.length ≤ c := by
  intro fuel
  induction fuel with
  | zero =>
    intro l h ch hch
    have hl : l = [] := List.length_eq_zero.mp (Nat.le_zero.mp h)
    subst hl; simp [chunkedAux] at hch
  | succ fuel ih =>
    intro l h ch hch
    match l with
    | [] => simp [chunkedAux] at hch
    | u :: us =>
      have hlen2 : ((u :: us).drop c).length ≤ fuel := by
        rw [List.length_drop]
        simp only [List.length_cons] at h ⊢
        omega
      simp only [chunkedAux, List.mem_cons] at hch
      rcases hch with rfl | hch
      · constructor
        · obtain ⟨k, rfl⟩ : ∃ k, c = k + 1 := ⟨c - 1, by omega⟩
          simp [List.take]
        · rw [List.length_take]
          omega
      · exact ih _ hlen2 ch hch

theorem chunkedAux_getD_full (c : Nat) (hc : 0 < c) :
    ∀ (fuel : Nat) (l : List String), l.length ≤ fuel →
      ∀ i, i + 1 < (chunkedAux c fuel l).length →
        ((chunkedAux c fuel l).getD i []).length = c := by
  intro fuel
  induction fuel with
  | zero =>
    intro l h i hi
    have hl : l = [] := List.length_eq_zero.mp (Nat.le_zero.mp h)
    subst hl; simp [chunkedAux] at hi
  | succ fuel ih =>
    intro l h i hi
    match l with
    | [] => simp [chunkedAux] at hi
    | u :: us =>
      have hlen2 : ((u :: us).drop c).length ≤ fuel := by
        rw [List.length_drop]
        simp only [List.length_cons] at h ⊢
        omega
      simp only [chunkedAux, List.length_cons] at hi
      cases i with
      | zero =>
        have hrest : chunkedAux c fuel ((u :: us).drop c) ≠ [] := by
          intro hnil
          rw [hnil] at hi
          simp at hi
        have hdrop : (u :: us).drop c ≠ [] := by
          intro hnil
          rw [hnil, chunkedAux_nil] at hrest
          exact hrest rfl
        have hclt : c < (u :: us).length := by
          by_contra hle
          exact hdrop (List.drop_eq_nil_of_le (by omega))
        simp only [chunkedAux, List.getD_cons_zero]
        rw [List.length_take]
        omega
      | succ j =>
        simp only [chunkedAux, List.getD_cons_succ]
        exact ih _ hlen2 j (by omega)

/-! ## Supplemental-loop lemmas -/

/-- Recognizer for supplemental-call events. -/
def isSuppEvent : Event → Bool
  | Event.supplementalCall _ _ => true
  | _ => false

/-- Recognizer for delay events. -/
def isDelayEvent : Event → Bool
  | Event.delayMs _ => true
  | _ => false

/-- `xs` occurs as a contiguous run inside `ys`. -/
def eventsConsecutive (xs ys : List Event) : Prop :=
  ∃ a b, ys = a ++ (xs ++ b)

theorem eventsConsecutive_append_left (xs ys zs : List Event) :
    eventsConsecutive xs ys → eventsConsecutive xs (zs ++ ys) := by
  rintro ⟨a, b, rfl⟩
  exact ⟨zs ++ a, b, by simp⟩

theorem supplementalAux_countP (step : Nat → CallOutcome) (body : DoubaoSeedreamRequest)
    (remaining : Nat) :
    ∀ l : List Nat,
      ((supplementalAux step body remaining l).2.countP isSuppEvent) = l.length := by
  intro l
  induction l with
  | nil => rfl
  | cons i rest ih =>
    by_cases hcond : (suppStep (step i)).2 = false ∧ i + 1 < remaining
    · simp [supplementalAux, hcond, List.countP_cons, isSuppEvent, ih]
    · simp [supplementalAux, hcond, List.countP_cons, isSuppEvent, ih]

theorem supplementalAux_events (step : Nat → CallOutcome) (body : DoubaoSeedreamRequest)
    (remaining : Nat) :
    ∀ (l : List Nat) (e : Event), e ∈ (supplementalAux step body remaining l).2 →
      isSuppEvent e = true ∨ isDelayEvent e = true := by
  intro l
  induction l with
  | nil => intro e he; simp [supplementalAux] at he
  | cons i rest ih =>
    intro e he
    simp only [supplementalAux, List.cons_append, List.mem_cons, List.mem_append] at he
    rcases he with rfl | he
    · left; rfl
    · rcases he with he | he
      · by_cases hcond : (suppStep (step i)).2 = false ∧ i + 1 < remaining
        · rw [if_pos hcond] at he
          simp only [List.mem_singleton] at he
          subst he
          right; rfl
        · rw [if_neg hcond] at he
          simp at he
      · exact ih e he

theorem supplementalAux_body (step : Nat → CallOutcome) (body : DoubaoSeedreamRequest)
    (remaining : Nat) :
    ∀ (l : List Nat) (i : Nat) (b : DoubaoSeedreamRequest),
      Event.supplementalCall i b ∈ (supplementalAux step body remaining l).2 → b = body := by
  intro l
  induction l with
  | nil => intro i b h; simp [supplementalAux] at h
  | cons j rest ih =>
    intro i b h
    simp only [supplementalAux, List.cons_append, List.mem_cons, List.mem_append] at h
    rcases h with h | h
    · exact ((Event.supplementalCall.injEq _ _ _ _).mp h).2
    · rcases h with h | h
      · by_cases hcond : (suppStep (step j)).2 = false ∧ j + 1 < remaining
        · rw [if_pos hcond] at h
          simp at h
        · rw [if_neg hcond] at h
          simp at h
      · exact ih i b h

theorem supplementalAux_urls_length (step : Nat → CallOutcome) (body : DoubaoSeedreamRequest)
    (remaining : Nat) :
    ∀ l : List Nat, (supplementalAux step body remaining l).1.length ≤ l.length := by
  intro l
  induction l with
  | nil => simp [supplementalAux]
  | cons i rest ih =>
    simp only [supplementalAux, List.length_append, List.length_cons]
    have : (suppStep (step i)).1.toList.length ≤ 1 := by
      cases (suppStep (step i)).1 <;> simp
    omega

theorem supplementalAux_delay (step : Nat → CallOutcome) (body : DoubaoSeedreamRequest)
    (remaining : Nat) :
    ∀ (l : List Nat) (i : Nat), i ∈ l → (suppStep (step i)).2 = false → i + 1 < remaining →
      eventsConsecutive [Event.supplementalCall i body, Event.delayMs 1000]
        (supplementalAux step body remaining l).2 := by
  intro l
  induction l with
  | nil => intro i h; simp at h
  | cons j rest ih =>
    intro i hmem hf hlt
    rcases List.mem_cons.mp hmem with rfl | hmem
    · refine ⟨[], (supplementalAux step body remaining rest).2, ?_⟩
      simp [supplementalAux, hf, hlt]
    · have hrec := ih i hmem hf hlt
      by_cases hcond : (suppStep (step j)).2 = false ∧ j + 1 < remaining
      · simp only [supplementalAux, hcond, if_pos]
        exact eventsConsecutive_append_left _ _ _ hrec
      · simp only [supplementalAux, hcond, if_neg]
        exact eventsConsecutive_append_left _ _ _ hrec

theorem supplementalLoop_countP (step : Nat → CallOutcome) (body : DoubaoSeedreamRequest)
    (remaining : Nat) :
    ((supplementalLoop step body remaining).2.countP isSuppEvent) = remaining := by
  rw [supplementalLoop, supplementalAux_countP, List.length_range]

theorem supplementalLoop_urls_length (step : Nat → CallOutcome) (body : DoubaoSeedreamRequest)
    (remaining : Nat) :
    (supplementalLoop step body remaining).1.length ≤ remaining := by
  have := supplementalAux_urls_length step body remaining (List.range remaining)
  rwa [List.length_range] at this

theorem supplementalLoop_delay (step : Nat → CallOutcome) (body : DoubaoSeedreamRequest)
    (remaining : Nat) (i : Nat) (hf : (suppStep (step i)).2 = false)
    (hlt : i + 1 < remaining) :
    eventsConsecutive [Event.supplementalCall i body, Event.delayMs 1000]
      (supplementalLoop step body remaining).2 :=
  supplementalAux_delay step body remaining (List.range remaining) i
    (List.mem_range.mpr (by omega)) hf hlt

/-! ## Driver lemmas -/

theorem suppResultOf_events (env : GenEnv) (v : ValidatedParams)
    (rb : DoubaoSeedreamRequest) (urls : List String) :
    ∀ e ∈ (suppResultOf env v rb urls).2, isSuppEvent e = true ∨ isDelayEvent e = true := by
  intro e he
  unfold suppResultOf at he
  split at he
  · rw [supplementalLoop] at he
    exact supplementalAux_events _ _ _ _ e he
  · simp at he

theorem suppResultOf_body (env : GenEnv) (v : ValidatedParams)
    (rb : DoubaoSeedreamRequest) (urls : List String) :
    ∀ (i : Nat) (b : DoubaoSeedreamRequest),
      Event.supplementalCall i b ∈ (suppResultOf env v rb urls).2 →
        b = { rb with num_images := none } := by
  intro i b h
  unfold suppResultOf at h
  split at h
  · rw [supplementalLoop] at h
    exact supplementalAux_body _ _ _ _ i b h
  · simp at h

theorem suppResultOf_countP (env : GenEnv) (v : ValidatedParams)
    (rb : DoubaoSeedreamRequest) (urls : List String)
    (h : (urls.length : Int) < v.num_images) :
    ((suppResultOf env v rb urls).2.countP isSuppEvent) =
      (v.num_images - (urls.length : Int)).toNat := by
  unfold suppResultOf
  rw [if_pos h]
  exact supplementalLoop_countP _ _ _

theorem suppResultOf_urls_length (env : GenEnv) (v : ValidatedParams)
    (rb : DoubaoSeedreamRequest) (urls : List String) :
    (suppResultOf env v rb urls).1.length ≤ (v.num_images - (urls.length : Int)).toNat := by
  unfold suppResultOf
  split
  · exact supplementalLoop_urls_length _ _ _
  · simp

theorem suppResultOf_delay (env : GenEnv) (v : ValidatedParams)
    (rb : DoubaoSeedreamRequest) (urls : List String) (i : Nat)
    (hu : (urls.length : Int) < v.num_images)
    (hf : (suppStep (env.supplemental i)).2 = false)
    (hlt : i + 1 < (v.num_images - (urls.length : Int)).toNat) :
    eventsConsecutive
      [Event.supplementalCall i { rb with num_images := none }, Event.delayMs 1000]
      (suppResultOf env v rb urls).2 := by
  unfold suppResultOf
  rw [if_pos hu]
  exact supplementalLoop_delay _ _ _ i hf hlt

theorem generate_invalid (env : GenEnv) (params : GenParams)
    (h : (DoubaoSeedreamInputSchema params).isOk = false) :
    (generateDoubaoSeedreamImage env params).1.success = false ∧
    (generateDoubaoSeedreamImage env params).1.error.isSome = true ∧
    (generateDoubaoSeedreamImage env params).2 = [] := by
  cases hv : DoubaoSeedreamInputSchema params with
  | error e => simp [generateDoubaoSeedreamImage, hv]
  | ok v => rw [hv] at h; simp [Except.isOk, Except.toBool] at h

theorem generate_eq_afterUrls (env : GenEnv) (params : GenParams) (v : ValidatedParams)
    (key : String) (data : Option (List String))
    (hv : DoubaoSeedreamInputSchema params = Except.ok v)
    (hk : env.apiKey = some key)
    (hp : env.primary = CallOutcome.ok data)
    (hne : (data.getD []).isEmpty = false) :
    generateDoubaoSeedreamImage env params =
      generateAfterUrls env params v
        (buildRequestBody v (resolveSizeAndResize v.size params.resizeOptions).1)
        (resolveSizeAndResize v.size params.resizeOptions).2 (data.getD []) := by
  simp only [generateDoubaoSeedreamImage, hv, hk, hp]
  simp [hne]

/-- The `processResults` value of lines 265-271 given the primary URL list. -/
def processResultsOf (env : GenEnv) (params : GenParams) (v : ValidatedParams)
    (imageUrls : List String) : List ImageProcessResult :=
  processAndUploadImagesBatch env.procOne
    (imageUrls ++
      (suppResultOf env v
        (buildRequestBody v (resolveSizeAndResize v.size params.resizeOptions).1) imageUrls).1)
    params.projectId (mapImageQuality params.quality) 3
    (resolveSizeAndResize v.size params.resizeOptions).2

theorem generateAfterUrls_fst (env : GenEnv) (params : GenParams) (v : ValidatedParams)
    (ro : Option ResizeOpts) (urls : List String) :
    (generateAfterUrls env params v
        (buildRequestBody v (resolveSizeAndResize v.size params.resizeOptions).1)
        ro urls).1 =
      finishProcessing (processAndUploadImagesBatch env.procOne
        (urls ++ (suppResultOf env v
          (buildRequestBody v (resolveSizeAndResize v.size params.resizeOptions).1) urls).1)
        params.projectId (mapImageQuality params.quality) 3 ro) := rfl

theorem generateAfterUrls_snd (env : GenEnv) (params : GenParams) (v : ValidatedParams)
    (rb : DoubaoSeedreamRequest) (ro : Option ResizeOpts) (urls : List String) :
    (generateAfterUrls env params v rb ro urls).2 =
      Event.primaryCall rb ::
        ((suppResultOf env v rb urls).2 ++
          [Event.processBatchCall (urls ++ (suppResultOf env v rb urls).1)]) := rfl

theorem finishProcessing_success_iff (rs : List ImageProcessResult) :
    (finishProcessing rs).success = true ↔ rs.filter (fun r => r.success) ≠ [] := by
  cases hf : rs.filter (fun r => r.success) with
  | nil => simp [finishProcessing, hf]
  | cons a as => simp [finishProcessing, hf]

theorem finishProcessing_failure (rs : List ImageProcessResult)
    (h : rs.filter (fun r => r.success) = []) :
    finishProcessing rs = { success := false, error := some "所有图像处理都失败了" } := by
  simp [finishProcessing, h]

theorem finishProcessing_success_fields (rs : List ImageProcessResult)
    (h : rs.filter (fun r => r.success) ≠ []) :
    (finishProcessing rs).urls =
      some ((rs.filter (fun r => r.success)).map (fun r => r.url.getD "")) ∧
    (finishProcessing rs).images =
      some ((rs.filter (fun r => r.success)).map (fun r =>
        ({ url := r.url.getD ""
           ossKey := r.ossKey
           originalSize := r.originalSize
           compressedSize := r.compressedSize
           compressionRatio := r.compressionRatio } : GenImage))) := by
  cases hf : rs.filter (fun r => r.success) with
  | nil => exact absurd hf h
  | cons a as =>
    constructor
    · simp [finishProcessing, hf, List.map_map, Function.comp]
    · simp [finishProcessing, hf]

/-! ## Validation and size-resolution helper lemmas -/

theorem resolve_token_2K (ro : Option ResizeOpts) :
    resolveSizeAndResize "2K" ro = (DoubaoSize.k2, ro) := by
  unfold resolveSizeAndResize
  rw [if_neg (by decide), if_neg (by decide)]

theorem resolve_token_4K (ro : Option ResizeOpts) :
    resolveSizeAndResize "4K" ro = (DoubaoSize.k4, ro) := by
  unfold resolveSizeAndResize
  rw [if_neg (by decide), if_pos (by decide)]

theorem schema_invalid_size (p : GenParams) (s : String)
    (hs : p.size = some s) (hvs : validSize s = false) :
    (DoubaoSeedreamInputSchema p).isOk = false := by
  have h4 : (match p.size with | some s' => !validSize s' | none => false) = true := by
    rw [hs]; simp [hvs]
  unfold DoubaoSeedreamInputSchema
  rw [h4]
  split_ifs with h1 h2 h3 h4' <;> first
    | exact absurd rfl h4'
    | simp [Except.isOk, Except.toBool]

theorem schema_ok_fields (p : GenParams) (v : ValidatedParams)
    (hv : DoubaoSeedreamInputSchema p = Except.ok v) :
    v.size = p.size.getD "2K" ∧ v.num_images = p.num_images.getD 1 := by
  unfold DoubaoSeedreamInputSchema at hv
  split_ifs at hv <;> try exact Except.noConfusion hv
  have h := Except.ok.inj hv
  rw [← h]
  exact ⟨rfl, rfl⟩

theorem schema_num_images_bounds (p : GenParams) (v : ValidatedParams)
    (hv : DoubaoSeedreamInputSchema p = Except.ok v) :
    1 ≤ v.num_images ∧ v.num_images ≤ 4 := by
  have hfield := (schema_ok_fields p v hv).2
  unfold DoubaoSeedreamInputSchema at hv
  split_ifs at hv with h1 h2 h3 h4 h5 h6 h7 <;> try exact Except.noConfusion hv
  cases hn : p.num_images with
  | none => rw [hfield, hn]; constructor <;> decide
  | some n =>
    rw [hn] at h5
    simp only [decide_eq_true_eq, Bool.or_eq_true, not_or] at h5
    rw [hfield, hn]
    simp only [Option.getD_some]
    omega

/-! ## C1: malformed explicit size strings -/

/-- C1 counterexample: with an otherwise fully successful environment, the
request `{prompt := "p", size := "abcxdef"}` is rejected by schema validation
(`success = false`, no event at all is emitted), so the claimed fallback to
the standard tier never happens for this input. -/
theorem c1_counterexample :
    (DoubaoSeedreamInputSchema { prompt := "p", size := some "abcxdef" }).isOk = false ∧
    (generateDoubaoSeedreamImage
        { apiKey := some "key"
          primary := CallOutcome.ok (some ["u1", "u2"])
          supplemental := fun _ => CallOutcome.ok (some ["v"])
          procOne := okProcOne }
        { prompt := "p", size := some "abcxdef" }).1.success = false ∧
    (generateDoubaoSeedreamImage
        { apiKey := some "key"
          primary := CallOutcome.ok (some ["u1", "u2"])
          supplemental := fun _ => CallOutcome.ok (some ["v"])
          procOne := okProcOne }
        { prompt := "p", size := some "abcxdef" }).2 = [] := by decide

/-- C1 amended: a size string that is neither `"2K"`/`"4K"` nor of the
digits-x-digits shape is rejected by validation — `generateDoubaoSeedreamImage`
returns `success = false` with an error and performs no call at all. The
permissive fallback only applies to strings matching the pattern whose parsed
dimensions are not both positive (e.g. `"0x0"`): those resolve to the standard
tier with no resize directive derived. -/
theorem c1_malformed_size (env : GenEnv) (p : GenParams) (s : String)
    (hs : p.size = some s) (hvs : validSize s = false) :
    ((generateDoubaoSeedreamImage env p).1.success = false ∧
      (generateDoubaoSeedreamImage env p).1.error.isSome = true ∧
      (generateDoubaoSeedreamImage env p).2 = []) ∧
    (∀ (s' : String) (ro : Option ResizeOpts), matchesWxH s' = true →
      ¬(0 < (parseWxH s').1 ∧ 0 < (parseWxH s').2) →
      resolveSizeAndResize s' ro = (DoubaoSize.k2, ro)) := by
  constructor
  · exact generate_invalid env p (schema_invalid_size p s hs hvs)
  · intro s' ro hm hnp
    simp only [resolveSizeAndResize]
    rw [if_pos hm, if_neg hnp]

theorem c1_malformed_size_witness :
    ((generateDoubaoSeedreamImage
        { apiKey := some "key"
          primary := CallOutcome.ok (some ["u1", "u2"])
          supplemental := fun _ => CallOutcome.ok (some ["v"])
          procOne := okProcOne }
        { prompt := "p", size := some "abcxdef" }).1.success = false ∧
      (generateDoubaoSeedreamImage
        { apiKey := some "key"
          primary := CallOutcome.ok (some ["u1", "u2"])
          supplemental := fun _ => CallOutcome.ok (some ["v"])
          procOne := okProcOne }
        { prompt := "p", size := some "abcxdef" }).1.error.isSome = true ∧
      (generateDoubaoSeedreamImage
        { apiKey := some "key"
          primary := CallOutcome.ok (some ["u1", "u2"])
          supplemental := fun _ => CallOutcome.ok (some ["v"])
          procOne := okProcOne }
        { prompt := "p", size := some "abcxdef" }).2 = []) ∧
    resolveSizeAndResize "0x0" none = (DoubaoSize.k2, none) :=
  have h := c1_malformed_size
    { apiKey := some "key"
      primary := CallOutcome.ok (some ["u1", "u2"])
      supplemental := fun _ => CallOutcome.ok (some ["v"])
      procOne := okProcOne }
    { prompt := "p", size := some "abcxdef" } "abcxdef" rfl (by decide)
  ⟨h.1, h.2 "0x0" none (by decide) (by decide)⟩

/-! ## C9: validation bounds and validation-before-network -/

/-- C9: prompts of length 1..800 with negative prompts of length 0..500 pass
validation (other fields left at their defaults); prompt length 0 or 801
fails; a requested image count outside [1,4] fails; and whenever validation
fails, `generateDoubaoSeedreamImage` emits no event (no network call) and
reports failure. -/
theorem c9_validation :
    (∀ (prompt np : String), 1 ≤ prompt.length → prompt.length ≤ 800 → np.length ≤ 500 →
      (DoubaoSeedreamInputSchema { prompt := prompt, negative_prompt := some np }).isOk = true) ∧
    (∀ p : GenParams, p.prompt.length = 0 ∨ p.prompt.length = 801 →
      (DoubaoSeedreamInputSchema p).isOk = false) ∧
    (∀ (p : GenParams) (n : Int), p.num_images = some n → (n < 1 ∨ 4 < n) →
      (DoubaoSeedreamInputSchema p).isOk = false) ∧
    (∀ (env : GenEnv) (p : GenParams), (DoubaoSeedreamInputSchema p).isOk = false →
      (generateDoubaoSeedreamImage env p).2 = [] ∧
      (generateDoubaoSeedreamImage env p).1.success = false) := by
  refine ⟨?_, ?_, ?_, ?_⟩
  · intro prompt np h1 h2 h3
    unfold DoubaoSeedreamInputSchema
    rw [if_neg (show ¬prompt.length < 1 by omega),
        if_neg (show ¬800 < prompt.length by omega),
        if_neg (show ¬500 < np.length by omega)]
    rfl
  · intro p hp
    rcases hp with hp | hp
    · unfold DoubaoSeedreamInputSchema
      rw [if_pos (show p.prompt.length < 1 by omega)]
      rfl
    · unfold DoubaoSeedreamInputSchema
      rw [if_neg (show ¬p.prompt.length < 1 by omega),
          if_pos (show 800 < p.prompt.length by omega)]
      rfl
  · intro p n hn hrange
    have h5 : (match p.num_images with
        | some n' => decide (n' < 1) || decide (4 < n')
        | none => false) = true := by
      rw [hn]
      rcases hrange with h | h <;> simp [h]
    unfold DoubaoSeedreamInputSchema
    rw [h5]
    split_ifs with h1 h2 h3 h4 h5' <;> first
      | exact absurd rfl h5'
      | simp [Except.isOk, Except.toBool]
  · intro env p h
    obtain ⟨hs, _, ht⟩ := generate_invalid env p h
    exact ⟨ht, hs⟩

theorem c9_validation_witness :
    (DoubaoSeedreamInputSchema { prompt := "你好", negative_prompt := some "" }).isOk = true ∧
    (DoubaoSeedreamInputSchema { prompt := "" }).isOk = false ∧
    (DoubaoSeedreamInputSchema { prompt := "p", num_images := some 5 }).isOk = false ∧
    ((generateDoubaoSeedreamImage
        { apiKey := some "key"
          primary := CallOutcome.ok (some ["u1", "u2"])
          supplemental := fun _ => CallOutcome.ok (some ["v"])
          procOne := okProcOne }
        { prompt := "" }).2 = [] ∧
      (generateDoubaoSeedreamImage
        { apiKey := some "key"
          primary := CallOutcome.ok (some ["u1", "u2"])
          supplemental := fun _ => CallOutcome.ok (some ["v"])
          procOne := okProcOne }
        { prompt := "" }).1.success = false) :=
  ⟨c9_validation.1 "你好" "" (by decide) (by decide) (by decide),
   c9_validation.2.1 { prompt := "" } (Or.inl (by decide)),
   c9_validation.2.2.1 { prompt := "p", num_images := some 5 } 5 rfl (by decide),
   c9_validation.2.2.2
     { apiKey := some "key"
       primary := CallOutcome.ok (some ["u1", "u2"])
       supplemental := fun _ => CallOutcome.ok (some ["v"])
       procOne := okProcOne }
     { prompt := "" } (by decide)⟩

/-! ## C6: tier mapping -/

/-- C6: an explicit `WxH` size with positive parsed dimensions resolves to the
high tier exactly when `max(W,H) > 2048`; the named tokens map to themselves;
and when no size is supplied, validation defaults the size to `"2K"`, which
resolves to the standard tier. -/
theorem c6_tier_mapping :
    (∀ (s : String) (w h : Nat) (ro : Option ResizeOpts),
      matchesWxH s = true → parseWxH s = (w, h) → 0 < w → 0 < h →
      (resolveSizeAndResize s ro).1 =
        (if 2048 < max w h then DoubaoSize.k4 else DoubaoSize.k2)) ∧
    (∀ ro, (resolveSizeAndResize "2K" ro).1 = DoubaoSize.k2) ∧
    (∀ ro, (resolveSizeAndResize "4K" ro).1 = DoubaoSize.k4) ∧
    (∀ (p : GenParams) (v : ValidatedParams), p.size = none →
      DoubaoSeedreamInputSchema p = Except.ok v →
      v.size = "2K" ∧ ∀ ro, (resolveSizeAndResize v.size ro).1 = DoubaoSize.k2) := by
  refine ⟨?_, ?_, ?_, ?_⟩
  · intro s w h ro hm hp hw hh
    simp only [resolveSizeAndResize]
    rw [if_pos hm, hp, if_pos ⟨hw, hh⟩]
  · intro ro
    rw [resolve_token_2K]
  · intro ro
    rw [resolve_token_4K]
  · intro p v hnone hv
    have hsize : v.size = "2K" := by
      rw [(schema_ok_fields p v hv).1, hnone]
      rfl
    refine ⟨hsize, fun ro => ?_⟩
    rw [hsize, resolve_token_2K]

theorem c6_tier_mapping_witness :
    (resolveSizeAndResize "3000x1000" none).1 =
      (if 2048 < max 3000 1000 then DoubaoSize.k4 else DoubaoSize.k2) ∧
    (resolveSizeAndResize "1024x768" none).1 =
      (if 2048 < max 1024 768 then DoubaoSize.k4 else DoubaoSize.k2) ∧
    (resolveSizeAndResize "2K" none).1 = DoubaoSize.k2 ∧
    (resolveSizeAndResize "4K" none).1 = DoubaoSize.k4 ∧
    ({ prompt := "p", negative_prompt := none, image := none, size := "2K", num_images := 1,
       sequential_image_generation := SeqGen.disabled, stream := false, watermark := false,
       seed := none, quality := none } : ValidatedParams).size = "2K" :=
  ⟨c6_tier_mapping.1 "3000x1000" 3000 1000 none (by decide) (by decide) (by decide) (by decide),
   c6_tier_mapping.1 "1024x768" 1024 768 none (by decide) (by decide) (by decide) (by decide),
   c6_tier_mapping.2.1 none,
   c6_tier_mapping.2.2.1 none,
   (c6_tier_mapping.2.2.2 { prompt := "p" }
     { prompt := "p", negative_prompt := none, image := none, size := "2K", num_images := 1,
       sequential_image_generation := SeqGen.disabled, stream := false, watermark := false,
       seed := none, quality := none } rfl rfl).1⟩

/-! ## C7 and C8: per-image processing -/

theorem processAndUploadImageE_ok_fields (env : ImageEnv) (pid fn : Option String)
    (r : ImageProcessResult) (h : processAndUploadImageE env pid fn = Except.ok r) :
    r.success = true ∧ r.url.isSome = true ∧ r.ossKey = some (ossKeyFor env pid fn) ∧
    ∃ (o c : Nat), 0 < o ∧ r.originalSize = some o ∧ r.compressedSize = some c ∧
      r.compressionRatio = some (computeCompressionRatio o c) := by
  unfold processAndUploadImageE at h
  repeat'
    first
      | exact Except.noConfusion h
      | split at h
  have hr := Except.ok.inj h
  rw [← hr]
  refine ⟨rfl, rfl, rfl, _, _, ?_, rfl, rfl, rfl⟩
  omega

/-- C8: `processAndUploadImage` never throws — its result is either a success
record or `{success := false, error := some e}`; every error of the `try` body
is returned as that failure record, and every success of the body is returned
unchanged with `success = true` and a URL present. -/
theorem c8_never_throws (env : ImageEnv) (pid fn : Option String) :
    ((processAndUploadImage env pid fn).success = true ∨
      ((processAndUploadImage env pid fn).success = false ∧
        (processAndUploadImage env pid fn).error.isSome = true)) ∧
    (∀ e, processAndUploadImageE env pid fn = Except.error e →
      processAndUploadImage env pid fn = { success := false, error := some e }) ∧
    (∀ r, processAndUploadImageE env pid fn = Except.ok r →
      processAndUploadImage env pid fn = r ∧ r.success = true ∧ r.url.isSome = true) := by
  refine ⟨?_, ?_, ?_⟩
  · cases hE : processAndUploadImageE env pid fn with
    | error e =>
      right
      unfold processAndUploadImage
      rw [hE]
      exact ⟨rfl, rfl⟩
    | ok r =>
      left
      unfold processAndUploadImage
      rw [hE]
      exact (processAndUploadImageE_ok_fields env pid fn r hE).1
  · intro e hE
    unfold processAndUploadImage
    rw [hE]
  · intro r hE
    have hfields := processAndUploadImageE_ok_fields env pid fn r hE
    unfold processAndUploadImage
    rw [hE]
    exact ⟨rfl, hfields.1, hfields.2.1⟩

/-- An environment where every step of one `processAndUploadImage` call
succeeds. -/
def cOkImgEnv : ImageEnv :=
  { fetchResult := Except.ok { ok := true, status := 200, statusText := "OK", bytes := [1, 2, 3, 4] }
    encodeResult := Except.ok [9, 9]
    timestampMs := 1700000000000
    randomId := "ab12cd"
    putResult := Except.ok ()
    signResult := Except.ok "https://oss.example/signed" }

/-- An environment whose download fetch rejects. -/
def cFailImgEnv : ImageEnv :=
  { fetchResult := Except.error "网络连接失败"
    encodeResult := Except.ok []
    timestampMs := 0
    randomId := "r"
    putResult := Except.ok ()
    signResult := Except.ok "u" }

theorem c8_never_throws_witness :
    processAndUploadImage cFailImgEnv none none =
      { success := false, error := some "网络连接失败" } ∧
    (processAndUploadImage cOkImgEnv (some "proj") none =
      { success := true
        url := some "https://oss.example/signed"
        ossKey := some (ossKeyFor cOkImgEnv (some "proj") none)
        originalSize := some 4
        compressedSize := some 2
        compressionRatio := some (computeCompressionRatio 4 2) } ∧
      ({ success := true
         url := some "https://oss.example/signed"
         ossKey := some (ossKeyFor cOkImgEnv (some "proj") none)
         originalSize := some 4
         compressedSize := some 2
         compressionRatio := some (computeCompressionRatio 4 2) } : ImageProcessResult).success = true ∧
      ({ success := true
         url := some "https://oss.example/signed"
         ossKey := some (ossKeyFor cOkImgEnv (some "proj") none)
         originalSize := some 4
         compressedSize := some 2
         compressionRatio := some (computeCompressionRatio 4 2) } : ImageProcessResult).url.isSome = true) :=
  ⟨(c8_never_throws cFailImgEnv none none).2.1 "网络连接失败" rfl,
   (c8_never_throws cOkImgEnv (some "proj") none).2.2
     { success := true
       url := some "https://oss.example/signed"
       ossKey := some (ossKeyFor cOkImgEnv (some "proj") none)
       originalSize := some 4
       compressedSize := some 2
       compressionRatio := some (computeCompressionRatio 4 2) } rfl⟩

/-- C7: every successful `processAndUploadImage` result carries
`compressionRatio = (originalSize - compressedSize) / originalSize * 100` with
a strictly positive original size, and the ratio expression itself returns 0
(not NaN, not a throw) when the original size is 0. -/
theorem c7_compression (env : ImageEnv) (pid fn : Option String)
    (h : (processAndUploadImage env pid fn).success = true) :
    (processAndUploadImage env pid fn).compressionRatio =
      some (computeCompressionRatio
        ((processAndUploadImage env pid fn).originalSize.getD 0)
        ((processAndUploadImage env pid fn).compressedSize.getD 0)) ∧
    0 < (processAndUploadImage env pid fn).originalSize.getD 0 ∧
    (∀ (o c : Nat), 0 < o → computeCompressionRatio o c =
      ((o : Rat) - (c : Rat)) / (o : Rat) * 100) ∧
    (∀ c : Nat, computeCompressionRatio 0 c = 0) := by
  have hformula : ∀ (o c : Nat), 0 < o → computeCompressionRatio o c =
      ((o : Rat) - (c : Rat)) / (o : Rat) * 100 := by
    intro o c ho
    unfold computeCompressionRatio
    rw [if_pos ho]
  have hzero : ∀ c : Nat, computeCompressionRatio 0 c = 0 := by
    intro c
    unfold computeCompressionRatio
    rw [if_neg (by omega)]
  cases hE : processAndUploadImageE env pid fn with
  | error e =>
    exfalso
    unfold processAndUploadImage at h
    rw [hE] at h
    simp at h
  | ok r =>
    have hres : processAndUploadImage env pid fn = r := by
      unfold processAndUploadImage
      rw [hE]
    obtain ⟨-, -, -, o, c, ho, horig, hcomp, hratio⟩ :=
      processAndUploadImageE_ok_fields env pid fn r hE
    rw [hres, horig, hcomp, hratio]
    exact ⟨by simp, by simpa using ho, hformula, hzero⟩

theorem c7_compression_witness :
    (processAndUploadImage cOkImgEnv (some "proj") none).compressionRatio =
      some (computeCompressionRatio
        ((processAndUploadImage cOkImgEnv (some "proj") none).originalSize.getD 0)
        ((processAndUploadImage cOkImgEnv (some "proj") none).compressedSize.getD 0)) ∧
    0 < (processAndUploadImage cOkImgEnv (some "proj") none).originalSize.getD 0 ∧
    computeCompressionRatio 4 2 = (((4 : Nat) : Rat) - ((2 : Nat) : Rat)) / ((4 : Nat) : Rat) * 100 ∧
    computeCompressionRatio 0 9 = 0 :=
  have h := c7_compression cOkImgEnv (some "proj") none rfl
  ⟨h.1, h.2.1, h.2.2.1 4 2 (by norm_num), h.2.2.2 9⟩

/-! ## C3: batch chunking, order preservation, failure isolation -/

/-- Default record used only as the `getD` fallback in statements. -/
def emptyResult : ImageProcessResult := { success := false }

/-- C3: with a positive concurrency, `processAndUploadImagesBatch` equals the
per-item map over the whole url list (one result per input URL, in input
order, regardless of individual failures), and the loop visits the chunks
`slice(i, i+c)`: they concatenate back to the input, every chunk is nonempty
with length at most `c`, and every chunk except possibly the last has length
exactly `c`. -/
theorem c3_batch_structure
    (procOne : Nat → String → Option String → Int → Option ResizeOpts → ImageProcessResult)
    (imageUrls : List String) (projectId : Option String) (quality : Int)
    (concurrency : Nat) (resizeOptions : Option ResizeOpts) (hc : 0 < concurrency) :
    processAndUploadImagesBatch procOne imageUrls projectId quality concurrency resizeOptions =
      mapFrom (fun i u => procOne i u projectId quality resizeOptions) 0 imageUrls ∧
    (processAndUploadImagesBatch procOne imageUrls projectId quality concurrency
        resizeOptions).length = imageUrls.length ∧
    (∀ i, i < imageUrls.length →
      (processAndUploadImagesBatch procOne imageUrls projectId quality concurrency
          resizeOptions).getD i emptyResult =
        procOne i (imageUrls.getD i "") projectId quality resizeOptions) ∧
    (chunked concurrency imageUrls).flatten = imageUrls ∧
    (∀ ch ∈ chunked concurrency imageUrls, ch ≠ [] ∧ ch.length ≤ concurrency) ∧
    (∀ i, i + 1 < (chunked concurrency imageUrls).length →
      ((chunked concurrency imageUrls).getD i []).length = concurrency) := by
  have hmain := processAndUploadImagesBatch_eq_mapFrom procOne imageUrls projectId quality
    concurrency resizeOptions hc
  refine ⟨hmain, ?_, ?_, ?_, ?_, ?_⟩
  · rw [hmain, mapFrom_length]
  · intro i hi
    rw [hmain, mapFrom_getD _ _ _ _ _ hi, Nat.zero_add]
  · exact chunkedAux_join concurrency hc imageUrls.length imageUrls (Nat.le_refl _)
  · exact chunkedAux_mem concurrency hc imageUrls.length imageUrls (Nat.le_refl _)
  · exact chunkedAux_getD_full concurrency hc imageUrls.length imageUrls (Nat.le_refl _)

theorem c3_batch_structure_witness :
    processAndUploadImagesBatch okProcOne ["a", "b", "c"] none 80 2 none =
      mapFrom (fun i u => okProcOne i u none 80 none) 0 ["a", "b", "c"] ∧
    (processAndUploadImagesBatch okProcOne ["a", "b", "c"] none 80 2 none).length =
      (["a", "b", "c"] : List String).length ∧
    (chunked 2 ["a", "b", "c"]).flatten = ["a", "b", "c"] :=
  have h := c3_batch_structure okProcOne ["a", "b", "c"] none 80 2 none (by decide)
  ⟨h.1, h.2.1, h.2.2.2.1⟩

/-! ## C10: the driver never throws -/

/-- C10: for every environment and input, `generateDoubaoSeedreamImage`
returns a value — either a success outcome, or a failure outcome that carries
an error message and leaves `urls`, `ossKeys` and `images` unset. -/
theorem c10_total_outcome (env : GenEnv) (params : GenParams) :
    (generateDoubaoSeedreamImage env params).1.success = true ∨
    ((generateDoubaoSeedreamImage env params).1.success = false ∧
      (generateDoubaoSeedreamImage env params).1.error.isSome = true ∧
      (generateDoubaoSeedreamImage env params).1.urls = none ∧
      (generateDoubaoSeedreamImage env params).1.ossKeys = none ∧
      (generateDoubaoSeedreamImage env params).1.images = none) := by
  cases hv : DoubaoSeedreamInputSchema params with
  | error e => right; simp [generateDoubaoSeedreamImage, hv]
  | ok v =>
    cases hk : env.apiKey with
    | none => right; simp [generateDoubaoSeedreamImage, hv, hk]
    | some key =>
      cases hp : env.primary with
      | thrown msg => right; simp [generateDoubaoSeedreamImage, hv, hk, hp]
      | httpError status statusText errorText =>
        right; simp [generateDoubaoSeedreamImage, hv, hk, hp]
      | ok data =>
        by_cases hne : (data.getD []).isEmpty = true
        · right; simp [generateDoubaoSeedreamImage, hv, hk, hp, hne]
        · have hne' : (data.getD []).isEmpty = false := by
            revert hne; cases (data.getD []).isEmpty <;> simp
          have heq := generate_eq_afterUrls env params v key data hv hk hp hne'
          rw [heq, generateAfterUrls_fst]
          cases hf : (processAndUploadImagesBatch env.procOne
              (data.getD [] ++ (suppResultOf env v
                (buildRequestBody v (resolveSizeAndResize v.size params.resizeOptions).1)
                (data.getD [])).1)
              params.projectId (mapImageQuality params.quality) 3
              (resolveSizeAndResize v.size params.resizeOptions).2).filter
              (fun r => r.success) with
          | nil =>
            right
            rw [finishProcessing_failure _ hf]
            exact ⟨rfl, rfl, rfl, rfl, rfl⟩
          | cons a as =>
            left
            exact (finishProcessing_success_iff _).mpr (by rw [hf]; simp)

/-! ## C5: primary request body -/

/-- Environment where the primary call returns two URLs and everything
downstream succeeds. -/
def cAllOkEnv : GenEnv :=
  { apiKey := some "key"
    primary := CallOutcome.ok (some ["u1", "u2"])
    supplemental := fun _ => CallOutcome.ok (some ["v"])
    procOne := okProcOne }

/-- The validated parameters produced for the request `{prompt := "p"}`. -/
def cValidatedP : ValidatedParams :=
  { prompt := "p", negative_prompt := none, image := none, size := "2K", num_images := 1,
    sequential_image_generation := SeqGen.disabled, stream := false, watermark := false,
    seed := none, quality := none }

/-- The validated parameters produced for `{prompt := "p", num_images := 3}`. -/
def cValidatedP3 : ValidatedParams :=
  { prompt := "p", negative_prompt := none, image := none, size := "2K", num_images := 3,
    sequential_image_generation := SeqGen.disabled, stream := false, watermark := false,
    seed := none, quality := none }

/-- C5: every primary request body recorded in the trace has
`num_images = 2` and `sequential_image_generation = "auto"`, regardless of the
caller's requested image count. -/
theorem c5_primary_body (env : GenEnv) (params : GenParams) (b : DoubaoSeedreamRequest)
    (hb : Event.primaryCall b ∈ (generateDoubaoSeedreamImage env params).2) :
    b.num_images = some 2 ∧ b.sequential_image_generation = some SeqGen.auto := by
  suffices hsuff : ∃ v, b = buildRequestBody v (resolveSizeAndResize v.size params.resizeOptions).1 by
    obtain ⟨v, rfl⟩ := hsuff
    exact ⟨rfl, rfl⟩
  cases hv : DoubaoSeedreamInputSchema params with
  | error e => simp [generateDoubaoSeedreamImage, hv] at hb
  | ok v =>
    refine ⟨v, ?_⟩
    cases hk : env.apiKey with
    | none => simp [generateDoubaoSeedreamImage, hv, hk] at hb
    | some key =>
      cases hp : env.primary with
      | thrown msg =>
        simp [generateDoubaoSeedreamImage, hv, hk, hp] at hb
        exact hb
      | httpError status statusText errorText =>
        simp [generateDoubaoSeedreamImage, hv, hk, hp] at hb
        exact hb
      | ok data =>
        by_cases hne : (data.getD []).isEmpty = true
        · simp [generateDoubaoSeedreamImage, hv, hk, hp, hne] at hb
          exact hb
        · have hne' : (data.getD []).isEmpty = false := by
            revert hne; cases (data.getD []).isEmpty <;> simp
          have heq := generate_eq_afterUrls env params v key data hv hk hp hne'
          rw [heq, generateAfterUrls_snd] at hb
          rcases List.mem_cons.mp hb with h | h
          · exact Event.primaryCall.inj h
          · exfalso
            rcases List.mem_append.mp h with h | h
            · rcases suppResultOf_events _ _ _ _ _ h with hs | hd
              · simp [isSuppEvent] at hs
              · simp [isDelayEvent] at hd
            · simp at h

theorem c5_primary_body_witness :
    (buildRequestBody cValidatedP (resolveSizeAndResize cValidatedP.size
        ({ prompt := "p" } : GenParams).resizeOptions).1).num_images = some 2 ∧
    (buildRequestBody cValidatedP (resolveSizeAndResize cValidatedP.size
        ({ prompt := "p" } : GenParams).resizeOptions).1).sequential_image_generation =
      some SeqGen.auto :=
  c5_primary_body cAllOkEnv { prompt := "p" }
    (buildRequestBody cValidatedP (resolveSizeAndResize cValidatedP.size
      ({ prompt := "p" } : GenParams).resizeOptions).1)
    (by decide)

/-! ## C2: success iff at least one image processed -/

/-- C2: once a call reaches the processing step (validation passed, key
present, primary call returned a nonempty URL list), the outcome succeeds iff
the batch produced at least one successful item; zero successes yield the
all-failed error; and on success `urls`/`images` are exactly the successful
subset. -/
theorem c2_processing_outcome (env : GenEnv) (params : GenParams) (v : ValidatedParams)
    (key : String) (data : Option (List String))
    (hv : DoubaoSeedreamInputSchema params = Except.ok v)
    (hk : env.apiKey = some key)
    (hp : env.primary = CallOutcome.ok data)
    (hne : (data.getD []).isEmpty = false) :
    ((generateDoubaoSeedreamImage env params).1.success = true ↔
      (processResultsOf env params v (data.getD [])).filter (fun r => r.success) ≠ []) ∧
    ((processResultsOf env params v (data.getD [])).filter (fun r => r.success) = [] →
      (generateDoubaoSeedreamImage env params).1 =
        { success := false, error := some "所有图像处理都失败了" }) ∧
    ((generateDoubaoSeedreamImage env params).1.success = true →
      (generateDoubaoSeedreamImage env params).1.urls =
        some (((processResultsOf env params v (data.getD [])).filter
          (fun r => r.success)).map (fun r => r.url.getD "")) ∧
      (generateDoubaoSeedreamImage env params).1.images =
        some (((processResultsOf env params v (data.getD [])).filter
          (fun r => r.success)).map (fun r =>
            ({ url := r.url.getD "", ossKey := r.ossKey, originalSize := r.originalSize,
               compressedSize := r.compressedSize,
               compressionRatio := r.compressionRatio } : GenImage)))) := by
  have heq := generate_eq_afterUrls env params v key data hv hk hp hne
  have hfst : (generateDoubaoSeedreamImage env params).1 =
      finishProcessing (processResultsOf env params v (data.getD [])) := by
    rw [heq, generateAfterUrls_fst]
    rfl
  refine ⟨?_, ?_, ?_⟩
  · rw [hfst]
    exact finishProcessing_success_iff _
  · intro hnil
    rw [hfst]
    exact finishProcessing_failure _ hnil
  · intro hs
    rw [hfst] at hs
    have hne2 := (finishProcessing_success_iff _).mp hs
    rw [hfst]
    exact finishProcessing_success_fields _ hne2

theorem c2_processing_outcome_witness :
    (generateDoubaoSeedreamImage cAllOkEnv { prompt := "p" }).1.success = true ↔
      (processResultsOf cAllOkEnv { prompt := "p" } cValidatedP ["u1", "u2"]).filter
        (fun r => r.success) ≠ [] :=
  (c2_processing_outcome cAllOkEnv { prompt := "p" } cValidatedP "key" (some ["u1", "u2"])
    rfl rfl rfl rfl).1

/-! ## C4: under-delivery supplemental calls -/

/-- Environment with an under-delivering primary call (1 URL) where the first
supplemental fetch rejects at network level. -/
def cUnderEnvThrow : GenEnv :=
  { apiKey := some "key"
    primary := CallOutcome.ok (some ["u1"])
    supplemental := fun i => if i = 0 then CallOutcome.thrown "网络错误"
      else CallOutcome.ok (some ["u3"])
    procOne := okProcOne }

/-- Environment with an under-delivering primary call (1 URL) where every
supplemental call succeeds. -/
def cUnderEnvOk : GenEnv :=
  { apiKey := some "key"
    primary := CallOutcome.ok (some ["u1"])
    supplemental := fun _ => CallOutcome.ok (some ["v"])
    procOne := okProcOne }

/-- The under-delivering request: three images requested. -/
def cUnderParams : GenParams := { prompt := "p", num_images := some 3 }

/-- C4 counterexample: requesting 3 images with a primary call returning 1,
where the first supplemental fetch rejects, produces two consecutive
supplemental calls with NO delay event anywhere in the trace — the 1-second
`setTimeout` sits inside the per-iteration `try`, so a thrown supplemental
call skips it. This refutes the claim that a fixed 1-second delay separates
every pair of consecutive supplemental calls. -/
theorem c4_counterexample :
    ((generateDoubaoSeedreamImage cUnderEnvThrow cUnderParams).2.countP isSuppEvent) = 2 ∧
    ((generateDoubaoSeedreamImage cUnderEnvThrow cUnderParams).2.countP isDelayEvent) = 0 := by
  decide

/-- C4 amended: with a validated request for `n` images whose primary call
returns `k < n` URLs, exactly `n - k` supplemental calls are issued (each with
the request body minus `num_images`); a 1-second delay immediately follows
every non-final supplemental call **that does not throw** (a thrown
supplemental call skips its delay); failures are skipped without aborting —
the batch-processing step still runs, and at most `n - k` supplemental URLs
are collected, so the final count may fall short of `n`. -/
theorem c4_supplemental (env : GenEnv) (params : GenParams) (v : ValidatedParams)
    (key : String) (data : Option (List String))
    (hv : DoubaoSeedreamInputSchema params = Except.ok v)
    (hk : env.apiKey = some key)
    (hp : env.primary = CallOutcome.ok data)
    (hne : (data.getD []).isEmpty = false)
    (hult : ((data.getD []).length : Int) < v.num_images) :
    ((generateDoubaoSeedreamImage env params).2.countP isSuppEvent) =
      (v.num_images - ((data.getD []).length : Int)).toNat ∧
    (∀ (i : Nat) (b : DoubaoSeedreamRequest),
      Event.supplementalCall i b ∈ (generateDoubaoSeedreamImage env params).2 →
        b.num_images = none) ∧
    (∀ i : Nat, (suppStep (env.supplemental i)).2 = false →
      i + 1 < (v.num_images - ((data.getD []).length : Int)).toNat →
      eventsConsecutive
        [Event.supplementalCall i
          { buildRequestBody v (resolveSizeAndResize v.size params.resizeOptions).1 with
              num_images := none },
         Event.delayMs 1000]
        (generateDoubaoSeedreamImage env params).2) ∧
    Event.processBatchCall
        (data.getD [] ++ (suppResultOf env v
          (buildRequestBody v (resolveSizeAndResize v.size params.resizeOptions).1)
          (data.getD [])).1) ∈ (generateDoubaoSeedreamImage env params).2 ∧
    (suppResultOf env v
        (buildRequestBody v (resolveSizeAndResize v.size params.resizeOptions).1)
        (data.getD [])).1.length ≤
      (v.num_images - ((data.getD []).length : Int)).toNat := by
  have heq := generate_eq_afterUrls env params v key data hv hk hp hne
  have htr : (generateDoubaoSeedreamImage env params).2 =
      Event.primaryCall (buildRequestBody v (resolveSizeAndResize v.size params.resizeOptions).1) ::
        ((suppResultOf env v
            (buildRequestBody v (resolveSizeAndResize v.size params.resizeOptions).1)
            (data.getD [])).2 ++
          [Event.processBatchCall (data.getD [] ++ (suppResultOf env v
            (buildRequestBody v (resolveSizeAndResize v.size params.resizeOptions).1)
            (data.getD [])).1)]) := by
    rw [heq, generateAfterUrls_snd]
  refine ⟨?_, ?_, ?_, ?_, ?_⟩
  · rw [htr]
    simp only [List.countP_cons, List.countP_append]
    rw [suppResultOf_countP env v _ (data.getD []) hult]
    simp [isSuppEvent]
  · intro i b hmem
    rw [htr] at hmem
    rcases List.mem_cons.mp hmem with h | h
    · exact absurd h (by simp)
    · rcases List.mem_append.mp h with h | h
      · rw [suppResultOf_body env v _ (data.getD []) i b h]
      · exfalso
        simp at h
  · intro i hf hlt
    obtain ⟨a, bb, hab⟩ := suppResultOf_delay env v
      (buildRequestBody v (resolveSizeAndResize v.size params.resizeOptions).1)
      (data.getD []) i hult hf hlt
    rw [htr, hab]
    refine ⟨Event.primaryCall (buildRequestBody v
      (resolveSizeAndResize v.size params.resizeOptions).1) :: a,
      bb ++ [Event.processBatchCall (data.getD [] ++ (suppResultOf env v
        (buildRequestBody v (resolveSizeAndResize v.size params.resizeOptions).1)
        (data.getD [])).1)], ?_⟩
    simp
  · rw [htr]
    simp
  · exact suppResultOf_urls_length env v _ (data.getD [])

theorem c4_supplemental_witness :
    ((generateDoubaoSeedreamImage cUnderEnvOk cUnderParams).2.countP isSuppEvent) =
      (cValidatedP3.num_images - ((["u1"] : List String).length : Int)).toNat ∧
    eventsConsecutive
      [Event.supplementalCall 0
        { buildRequestBody cValidatedP3
            (resolveSizeAndResize cValidatedP3.size cUnderParams.resizeOptions).1 with
            num_images := none },
       Event.delayMs 1000]
      (generateDoubaoSeedreamImage cUnderEnvOk cUnderParams).2 ∧
    (suppResultOf cUnderEnvOk cValidatedP3
        (buildRequestBody cValidatedP3
          (resolveSizeAndResize cValidatedP3.size cUnderParams.resizeOptions).1)
        ["u1"]).1.length ≤
      (cValidatedP3.num_images - ((["u1"] : List String).length : Int)).toNat :=
  have h := c4_supplemental cUnderEnvOk cUnderParams cValidatedP3 "key" (some ["u1"])
    rfl rfl rfl rfl (by decide)
  ⟨h.1, h.2.2.1 0 (by decide) (by decide), h.2.2.2.2⟩
